import Mathlib

/-!
Verification of the platform action dispatcher of the voice-assistant
repository (src/system_controller.py, src/command_processing.py).

The Python code is shallowly embedded: pure string manipulation is
translated to executable Lean functions on `String`/`List Char`;
process launching (`subprocess.Popen`), `subprocess.run`, the web-open
collaborator (`webbrowser.open`) and the Windows audio endpoint are
modelled as explicit effect logs, with the behaviour of the outside
world supplied as an environment parameter.
-/

/-! ## Python string primitives used by the source -/

/-- Embedding of Python `str.lower` (the source only uses ASCII keys). -/
def pyLower (s : String) : String := ⟨s.data.map Char.toLower⟩

/-- Whitespace test used by `pyStrip` (space, tab, newline, carriage return). -/
def wsp (c : Char) : Bool := c == ' ' || c == '\t' || c == '\n' || c == '\r'

/-- Embedding of Python `str.strip`: drop leading and trailing whitespace. -/
def pyStrip (s : String) : String :=
  ⟨((s.data.dropWhile wsp).reverse.dropWhile wsp).reverse⟩

/-- Embedding of Python `str.capitalize`: first character upper-cased, the rest lower-cased. -/
def pyCapitalize (s : String) : String :=
  match s.data with
  | [] => s
  | c :: t => ⟨Char.toUpper c :: t.map Char.toLower⟩

/-- Character-list test: the first argument occurs at the head of the second. -/
def chStartsWith : List Char → List Char → Bool
  | [], _ => true
  | _ :: _, [] => false
  | a :: as, b :: bs => a == b && chStartsWith as bs

/-- Character-list test: the first argument occurs contiguously in the second. -/
def chHasSub (n : List Char) : List Char → Bool
  | [] => chStartsWith n []
  | c :: t => chStartsWith n (c :: t) || chHasSub n t

/-- Embedding of the Python substring test `needle in hay`. -/
def strIn (needle hay : String) : Bool := chHasSub needle.data hay.data

/-- Fuel-driven worker for `pyReplace`; fuel is the input length, which suffices. -/
def replAllFuel (pat rep : List Char) : Nat → List Char → List Char
  | 0, l => l
  | _ + 1, [] => []
  | n + 1, c :: t =>
    if chStartsWith pat (c :: t) then rep ++ replAllFuel pat rep n (t.drop (pat.length - 1))
    else c :: replAllFuel pat rep n t

/-- Embedding of Python `str.replace`: every non-overlapping occurrence of
`pat` in `s` is replaced by `rep`, scanning left to right. -/
def pyReplace (s pat rep : String) : String :=
  match pat.data with
  | [] => s
  | _ :: _ => ⟨replAllFuel pat.data rep.data s.data.length s.data⟩

/-! ## Command prober (`SystemController._try_launch`, src/system_controller.py:76-85) -/

/-- Outcome of one `subprocess.Popen` invocation, supplied by the environment:
the process starts, `Popen` raises `FileNotFoundError`, or `Popen` raises any
other exception. -/
inductive PopenBehavior
  | starts
  | fileNotFound
  | raisesOther
deriving DecidableEq

/-- Side-effect log of the dispatcher: every `subprocess.Popen` invocation (in
order), every `webbrowser.open` invocation, and every internal error print of
`_try_launch`. -/
structure Effects where
  launches : List (List String)
  webOpens : List String
  errorLogs : List (List String)
deriving DecidableEq

/-- Concatenation of two effect logs, in execution order. -/
def Effects.app (e f : Effects) : Effects :=
  ⟨e.launches ++ f.launches, e.webOpens ++ f.webOpens, e.errorLogs ++ f.errorLogs⟩

/-- Embedding of `SystemController._try_launch(cmd_list)`: one unconditional
`subprocess.Popen` invocation; `True` on a successful start, `False` when
`Popen` raises `FileNotFoundError` (silently) or any other exception (after
printing an error), both conflated into the same return value. -/
def try_launch (env : List String → PopenBehavior) (cmdList : List String) : Bool × Effects :=
  match env cmdList with
  | .starts => (true, ⟨[cmdList], [], []⟩)
  | .fileNotFound => (false, ⟨[cmdList], [], []⟩)
  | .raisesOther => (false, ⟨[cmdList], [], [cmdList]⟩)

/-! ## Capability registry (`SystemController.APPS`, src/system_controller.py:34-62) -/

/-- Resolution descriptor: a web URI, or a per-platform list of strings exactly
as written in the `APPS` table (the source stores a flat string list per
platform). -/
inductive Descriptor
  | web (uri : String)
  | launch (plats : List (String × List String))
deriving DecidableEq

/-- Embedding of the `APPS` table, in declaration order. -/
def APPS : List (String × Descriptor) :=
  [("notepad", .launch
      [("Windows", ["notepad.exe"]),
       ("Darwin", ["open", "-a", "TextEdit"]),
       ("Linux", ["gedit", "xed", "nano"])]),
   ("calculator", .launch
      [("Windows", ["calc.exe"]),
       ("Darwin", ["open", "-a", "Calculator"]),
       ("Linux", ["gnome-calculator", "kcalc", "xcalc"])]),
   ("task manager", .launch
      [("Windows", ["taskmgr.exe"]),
       ("Darwin", ["open", "-a", "Activity Monitor"]),
       ("Linux", ["gnome-system-monitor", "htop"])]),
   ("terminal", .launch
      [("Windows", ["cmd.exe"]),
       ("Darwin", ["open", "-a", "Terminal"]),
       ("Linux", ["gnome-terminal", "konsole"])]),
   ("youtube", .web "https://youtube.com"),
   ("google", .web "https://google.com"),
   ("email client", .launch
      [("Windows", ["outlook.exe"]),
       ("Darwin", ["open", "-a", "Mail"]),
       ("Linux", ["thunderbird"])])]

/-! ## Action resolver (`SystemController.open_application`, src/system_controller.py:113-137) -/

/-- Embedding of the registry scan `for k, v in self.APPS.items(): if k in key`:
the first entry whose key occurs as a substring of the query is selected. -/
def lookupMatch (key : String) : List (String × Descriptor) → Option (String × Descriptor)
  | [] => none
  | (k, v) :: rest => if strIn k key then some (k, v) else lookupMatch key rest

/-- Embedding of the inner loop `for cmd in candidates: if self._try_launch(cmd)`:
each element of the platform's string list is passed to `_try_launch` on its
own (a bare string handed to `Popen`, i.e. a one-token command), stopping at
the first successful start. -/
def walkTokens (env : List String → PopenBehavior) (k : String) :
    List String → String × Effects
  | [] => (pyCapitalize k ++ " not found on this system.", ⟨[], [], []⟩)
  | c :: rest =>
    let t := try_launch env [c]
    if t.1 then ("Opening " ++ k, t.2)
    else
      let r := walkTokens env k rest
      (r.1, t.2.app r.2)

/-- Embedding of `SystemController.open_application(name)`. -/
def open_application (env : List String → PopenBehavior) (osName name : String) :
    String × Effects :=
  let key := pyLower name
  match lookupMatch key APPS with
  | some (k, .web uri) => ("Opening " ++ k, ⟨[], [uri], []⟩)
  | some (k, .launch plats) => walkTokens env k ((plats.lookup osName).getD [])
  | none =>
    let t := try_launch env [key]
    if t.1 then ("Opening " ++ key, t.2)
    else
      ("Could not find " ++ key ++ " as an application. Opening web search for it.",
       t.2.app ⟨[], ["https://www.google.com/search?q=open+" ++ key], []⟩)

/-! ## Volume control surface (`SystemController.set_volume` and
`SystemController._get_volume_control_cmd`, src/system_controller.py:87-224) -/

/-- Argument of `set_volume`: Python dispatches on `isinstance(level_or_action, int)`
versus `str`. -/
inductive VolArg
  | level (n : Int)
  | action (s : String)

/-- Side-effect log of the volume surface: every `subprocess.run` invocation and
every call on the Windows audio-endpoint interface (by method name). -/
structure VolEff where
  runs : List (List String)
  audio : List String
deriving DecidableEq

/-- Embedding of `SystemController._get_volume_control_cmd(action, level)`
(src/system_controller.py:87-111): the literal per-platform command table. -/
def get_volume_control_cmd (osName action : String) (level : Int) : Option (List String) :=
  if osName = "Linux" then
    if action = "mute" then some ["amixer", "-D", "pulse", "sset", "Master", "0%"]
    else if action = "unmute" then some ["amixer", "-D", "pulse", "sset", "Master", "unmute"]
    else if action = "set" then
      some ["amixer", "-D", "pulse", "sset", "Master", toString level ++ "%"]
    else if action = "increase" then
      some ["amixer", "-D", "pulse", "sset", "Master", "5%+", "unmute"]
    else if action = "decrease" then
      some ["amixer", "-D", "pulse", "sset", "Master", "5%-", "unmute"]
    else none
  else if osName = "Darwin" then
    if action = "mute" then some ["osascript", "-e", "set volume output muted true"]
    else if action = "unmute" then some ["osascript", "-e", "set volume output muted false"]
    else if action = "set" then
      some ["osascript", "-e", "set volume output volume " ++ toString level]
    else if action = "increase" then
      some ["osascript", "-e",
        "set volume output volume ((get volume settings)\x27s output volume + 5)"]
    else if action = "decrease" then
      some ["osascript", "-e",
        "set volume output volume ((get volume settings)\x27s output volume - 5)"]
    else none
  else none

/-- Modelled from the spec: level semantics of the relative-step commands that
the Linux/Darwin branches hand to the external mixer tools (`amixer` relative
`5%+`/`5%-`, and the macOS scripting bridge adding or subtracting 5), which
the repository does not implement itself; per the spec these step by five
points and clamp to the 0-100 range. Commands other than the four relative
steps leave the modelled output level unchanged. -/
def mixerStep (cmd : List String) (l : ℚ) : ℚ :=
  if cmd = ["amixer", "-D", "pulse", "sset", "Master", "5%+", "unmute"] ∨
     cmd = ["osascript", "-e",
       "set volume output volume ((get volume settings)\x27s output volume + 5)"] then
    min 100 (l + 5)
  else if cmd = ["amixer", "-D", "pulse", "sset", "Master", "5%-", "unmute"] ∨
     cmd = ["osascript", "-e",
       "set volume output volume ((get volume settings)\x27s output volume - 5)"] then
    max 0 (l - 5)
  else l

/-- Embedding of `SystemController.set_volume(level_or_action)`
(src/system_controller.py:158-224). State threaded explicitly: `audioOk` is
whether the Windows audio endpoint initialised (`self.volume` non-None),
`audioErr m` is the error detail when the Windows audio-endpoint method `m`
raises (`none` = the call succeeds; these exceptions are caught by the
`try/except` blocks at source lines 170-178 and 194-211, which return an
error message and leave the level unchanged), `runErr c` is the error detail
when `subprocess.run(c, check=True)` raises `CalledProcessError` (`none` =
success), `lvl` is the observable output volume level in percent (the Windows
dB interpolation of a requested percentage is abstracted to that percentage).
Returns the message, the new level, and the effect log; the audio log records
every endpoint call attempted, including the one that raised. -/
def set_volume (osName : String) (audioOk : Bool) (audioErr : String → Option String)
    (runErr : List String → Option String)
    (lvl : ℚ) (arg : VolArg) : String × ℚ × VolEff :=
  match arg with
  | .level n =>
    if ¬(0 ≤ n ∧ n ≤ 100) then
      ("Error: Volume level must be between 0 and 100.", lvl, ⟨[], []⟩)
    else if osName = "Windows" then
      if ¬audioOk then
        ("Windows audio control not initialized. Cannot set volume.", lvl, ⟨[], []⟩)
      else
        match audioErr "GetVolumeRange" with
        | some e =>
          ("Error setting volume on Windows: " ++ e, lvl, ⟨[], ["GetVolumeRange"]⟩)
        | none =>
          match audioErr "SetMasterVolumeLevel" with
          | some e =>
            ("Error setting volume on Windows: " ++ e, lvl,
             ⟨[], ["GetVolumeRange", "SetMasterVolumeLevel"]⟩)
          | none =>
            ("Setting volume to " ++ toString n ++ "%", (n : ℚ),
             ⟨[], ["GetVolumeRange", "SetMasterVolumeLevel"]⟩)
    else
      match get_volume_control_cmd osName "set" n with
      | some cmd =>
        match runErr cmd with
        | none => ("Setting volume to " ++ toString n ++ "%", (n : ℚ), ⟨[cmd], []⟩)
        | some e => ("Error setting volume: " ++ e, lvl, ⟨[cmd], []⟩)
      | none => ("Volume control not supported on this OS.", lvl, ⟨[], []⟩)
  | .action s =>
    let a := pyLower s
    if a = "mute" ∨ a = "unmute" ∨ a = "increase" ∨ a = "decrease" then
      if osName = "Windows" then
        if ¬audioOk then
          ("Windows audio control not initialized. Cannot control volume.", lvl, ⟨[], []⟩)
        else
          match audioErr "GetMasterVolumeLevelScalar" with
          | some e =>
            ("Error controlling volume on Windows: " ++ e, lvl,
             ⟨[], ["GetMasterVolumeLevelScalar"]⟩)
          | none =>
            if a = "mute" then
              match audioErr "SetMute" with
              | some e =>
                ("Error controlling volume on Windows: " ++ e, lvl,
                 ⟨[], ["GetMasterVolumeLevelScalar", "SetMute"]⟩)
              | none =>
                ("Muting volume.", lvl, ⟨[], ["GetMasterVolumeLevelScalar", "SetMute"]⟩)
            else if a = "unmute" then
              match audioErr "SetMute" with
              | some e =>
                ("Error controlling volume on Windows: " ++ e, lvl,
                 ⟨[], ["GetMasterVolumeLevelScalar", "SetMute"]⟩)
              | none =>
                ("Unmuting volume.", lvl, ⟨[], ["GetMasterVolumeLevelScalar", "SetMute"]⟩)
            else if a = "increase" then
              match audioErr "SetMasterVolumeLevelScalar" with
              | some e =>
                ("Error controlling volume on Windows: " ++ e, lvl,
                 ⟨[], ["GetMasterVolumeLevelScalar", "SetMasterVolumeLevelScalar"]⟩)
              | none =>
                ("Increasing volume to " ++ toString (Rat.floor (min 100 (lvl + 5))) ++ "%",
                 min 100 (lvl + 5),
                 ⟨[], ["GetMasterVolumeLevelScalar", "SetMasterVolumeLevelScalar"]⟩)
            else
              match audioErr "SetMasterVolumeLevelScalar" with
              | some e =>
                ("Error controlling volume on Windows: " ++ e, lvl,
                 ⟨[], ["GetMasterVolumeLevelScalar", "SetMasterVolumeLevelScalar"]⟩)
              | none =>
                ("Decreasing volume to " ++ toString (Rat.floor (max 0 (lvl - 5))) ++ "%",
                 max 0 (lvl - 5),
                 ⟨[], ["GetMasterVolumeLevelScalar", "SetMasterVolumeLevelScalar"]⟩)
      else
        match get_volume_control_cmd osName a 0 with
        | some cmd =>
          match runErr cmd with
          | none => (pyCapitalize a ++ "ing volume.", mixerStep cmd lvl, ⟨[cmd], []⟩)
          | some e => ("Error " ++ a ++ "ing volume: " ++ e, lvl, ⟨[cmd], []⟩)
        | none => ("Volume " ++ a ++ " not supported on this OS.", lvl, ⟨[], []⟩)
    else
      ("Invalid volume action. Use \x27mute\x27, \x27unmute\x27, \x27increase\x27, \x27decrease\x27 or a percentage.",
       lvl, ⟨[], []⟩)

/-! ## Intent router (`CommandProcessor.handle_command`, src/command_processing.py:13-35) -/

/-- Environment of the router: the wall clock (hour and minute for
`strftime("%H:%M")`, plus the formatted date string for `strftime("%d %B %Y")`),
the `wikipedia.summary` collaborator (`Except.error` models a raised
exception, carrying `str(e)`), the `Popen` environment and the platform name
used by the resolver. -/
structure RouterEnv where
  hh : Nat
  mm : Nat
  dateStr : String
  wiki : String → Except String String
  popen : List String → PopenBehavior
  osName : String

/-- Zero-padded two-digit rendering, as produced by `strftime` field `%H`/`%M`. -/
def pad2 (n : Nat) : String := ⟨[Nat.digitChar (n / 10 % 10), Nat.digitChar (n % 10)]⟩

/-- Result of one routed query: the returned message, the list of action keys
passed to `SystemController.open_application` (empty or a singleton), and the
resolver's side effects. -/
structure RouteOut where
  msg : String
  resolverKeys : List String
  eff : Effects
deriving DecidableEq

/-- Embedding of `CommandProcessor.handle_command(query)`. -/
def handle_command (env : RouterEnv) (q : String) : RouteOut :=
  let query := pyStrip (pyLower q)
  if strIn "time" query then
    ⟨"The current time is " ++ pad2 env.hh ++ ":" ++ pad2 env.mm, [], ⟨[], [], []⟩⟩
  else if strIn "date" query then
    ⟨"Today\x27s date is " ++ env.dateStr, [], ⟨[], [], []⟩⟩
  else if strIn "wikipedia" query then
    match env.wiki (pyStrip (pyReplace query "wikipedia" "")) with
    | .ok info => ⟨"According to Wikipedia: " ++ info, [], ⟨[], [], []⟩⟩
    | .error e =>
      ⟨"Sorry, I couldn\x27t fetch that information. (" ++ e ++ ")", [], ⟨[], [], []⟩⟩
  else if strIn "open" query then
    let appName := pyStrip (pyReplace query "open" "")
    let r := open_application env.popen env.osName appName
    ⟨r.1, [appName], r.2⟩
  else
    ⟨"Sorry, I don\x27t know that yet.", [], ⟨[], [], []⟩⟩

/-! ## Concrete environments used by witnesses and counterexamples -/

/-- Environment in which no executable is present: every `Popen` raises
`FileNotFoundError`. -/
def envAllNF : List String → PopenBehavior := fun _ => PopenBehavior.fileNotFound

/-- Environment in which only the bare command `open` starts (as on a macOS
host, where `/usr/bin/open` always exists). -/
def envOpenBin : List String → PopenBehavior :=
  fun c => if c = ["open"] then PopenBehavior.starts else PopenBehavior.fileNotFound

/-- Environment in which every `Popen` raises a non-`FileNotFoundError`
exception. -/
def envAllErr : List String → PopenBehavior := fun _ => PopenBehavior.raisesOther

/-- Concrete router environment: 09:05, a failing knowledge collaborator, no
executables present, Linux platform. -/
def renv0 : RouterEnv :=
  ⟨9, 5, "12 October 2025", fun _ => Except.error "test detail", envAllNF, "Linux"⟩

/-! ## Helper lemmas on the string primitives -/

/-- A list starts with itself followed by anything. -/
theorem chStartsWith_self_append (n t : List Char) : chStartsWith n (n ++ t) = true := by
  induction n with
  | nil => rfl
  | cons a as ih => simp [chStartsWith, ih]

/-- Substring occurrence is preserved by prepending, given a match at the head. -/
theorem chHasSub_append_left (pre n h : List Char) (hs : chStartsWith n h = true) :
    chHasSub n (pre ++ h) = true := by
  induction pre with
  | nil =>
    cases h with
    | nil => simpa [chHasSub] using hs
    | cons c t => simp [chHasSub, hs]
  | cons p ps ih => simp [chHasSub, ih]

/-- A string occurs in any string of the form `pre ++ s ++ post`. -/
theorem strIn_parts (pre s post : String) : strIn s (pre ++ s ++ post) = true := by
  unfold strIn
  rw [String.data_append, String.data_append, List.append_assoc]
  exact chHasSub_append_left pre.data s.data (s.data ++ post.data)
    (chStartsWith_self_append s.data post.data)

/-- A string occurs in any string of the form `pre ++ s`. -/
theorem strIn_append_right (pre s : String) : strIn s (pre ++ s) = true := by
  unfold strIn
  rw [String.data_append]
  exact chHasSub_append_left pre.data s.data s.data
    (by simpa using chStartsWith_self_append s.data [])

/-- The fallback message never starts with the success marker `Opening`. -/
theorem chStartsWith_opening_could (z : List Char) :
    chStartsWith "Opening".data ("Could not find ".data ++ z) = false := rfl

/-- The registry scan is `List.find?` with the one-directional containment test. -/
theorem lookupMatch_eq_find? (key : String) (l : List (String × Descriptor)) :
    lookupMatch key l = l.find? (fun kv => strIn kv.1 key) := by
  induction l with
  | nil => rfl
  | cons kv rest ih =>
    obtain ⟨k, v⟩ := kv
    cases h : strIn k key <;> simp [lookupMatch, List.find?, h, ih]

/-! ## Claim C1 -/

/-- C1 (code bug): the claim says each candidate of a launch target is one
complete command (executable plus arguments) probed and launched as a single
unit. The code instead iterates over the tokens of the platform list and hands
each bare token to `Popen` as its own one-token command. On Darwin with key
`notepad`, whose declared candidate is the single command
`["open", "-a", "TextEdit"]`: when nothing is present the code makes three
separate one-token probes (`open`, `-a`, `TextEdit`); when the bare `open`
binary is present (as it always is on macOS) the code launches `open` with no
arguments and reports success without ever launching the declared command. -/
theorem open_application_darwin_probes_tokens :
    open_application envAllNF "Darwin" "notepad" =
      ("Notepad not found on this system.", ⟨[["open"], ["-a"], ["TextEdit"]], [], []⟩) ∧
    open_application envOpenBin "Darwin" "notepad" =
      ("Opening notepad", ⟨[["open"]], [], []⟩) := by
  exact ⟨by decide, by decide⟩

/-! ## Claim C2 -/

/-- C2 (counterexample): at a command whose executable is not resolvable
(`Popen` raises `FileNotFoundError`), the probe still makes one `Popen`
process-start invocation — not zero — and its returned value is identical to
the one returned when a start attempt fails with any other exception, so the
return conflates NotFound with LaunchError. -/
theorem try_launch_notfound_attempt_cex :
    envAllNF ["foo"] = PopenBehavior.fileNotFound ∧
    (try_launch envAllNF ["foo"]).2.launches = [["foo"]] ∧
    (try_launch envAllNF ["foo"]).1 = (try_launch envAllErr ["foo"]).1 := by
  exact ⟨rfl, rfl, rfl⟩

/-- C2 (amended): the probe makes exactly one `Popen` invocation in every case
(including the not-resolvable case, whose `FileNotFoundError` is itself the
not-found signal); the three underlying cases are distinguished internally —
only a non-`FileNotFoundError` failure is logged — but the returned value is a
two-valued flag that is `true` exactly when the process started. -/
theorem try_launch_single_popen_invocation (env : List String → PopenBehavior)
    (cmd : List String) :
    (try_launch env cmd).2.launches = [cmd] ∧
    ((try_launch env cmd).1 = true ↔ env cmd = PopenBehavior.starts) ∧
    (try_launch env cmd).2.errorLogs =
      (if env cmd = PopenBehavior.raisesOther then [cmd] else []) ∧
    (try_launch env cmd).2.webOpens = [] := by
  cases h : env cmd <;> simp [try_launch, h]

/-! ## Claim C3 -/

/-- C3 (counterexample): containment in both directions would let the query
`calc` match the registry key `calculator` (the query is contained in the
key), but the code's test is one-directional (`k in key`), so no registry
entry matches and the resolver takes the unknown-key fallback path instead. -/
theorem lookup_not_bidirectional_cex :
    strIn "calc" "calculator" = true ∧
    lookupMatch "calc" APPS = none ∧
    open_application envAllNF "Linux" "calc" =
      ("Could not find calc as an application. Opening web search for it.",
       ⟨[["calc"]], ["https://www.google.com/search?q=open+calc"], []⟩) := by
  exact ⟨by decide, by decide, by decide⟩

/-- C3 (amended): registry lookup matches only when the registry key is
contained in the query (one direction), and among matching entries the first
in declaration order is selected — the scan is exactly `List.find?` over the
declaration-ordered table with the one-directional containment test. -/
theorem lookup_first_match_one_directional (key : String) :
    lookupMatch key APPS = APPS.find? (fun kv => strIn kv.1 key) ∧
    (lookupMatch key APPS).all (fun kv => strIn kv.1 key) = true := by
  have h := lookupMatch_eq_find? key APPS
  refine ⟨h, ?_⟩
  rw [h]
  cases hf : APPS.find? (fun kv => strIn kv.1 key) with
  | none => rfl
  | some kv => simpa [Option.all] using List.find?_some hf

/-! ## Claim C4 -/

/-- C4: when no registry entry matches the lowercased query and the raw token
does not launch as a standalone executable, the resolver opens the web-search
fallback URI containing the lowercased query text and returns the explicit
fallback message, which never starts with the `Opening` marker used by every
confirmed-resolution success message. -/
theorem open_application_web_search_fallback (env : List String → PopenBehavior)
    (osName name : String)
    (hmatch : lookupMatch (pyLower name) APPS = none)
    (hlaunch : env [pyLower name] ≠ PopenBehavior.starts) :
    open_application env osName name =
      ("Could not find " ++ pyLower name ++ " as an application. Opening web search for it.",
       ⟨[[pyLower name]],
        ["https://www.google.com/search?q=open+" ++ pyLower name],
        if env [pyLower name] = PopenBehavior.raisesOther then [[pyLower name]] else []⟩) ∧
    strIn (pyLower name) ("https://www.google.com/search?q=open+" ++ pyLower name) = true ∧
    chStartsWith "Opening".data
      ("Could not find " ++ pyLower name ++
        " as an application. Opening web search for it.").data = false := by
  refine ⟨?_, strIn_append_right _ _, ?_⟩
  · cases h : env [pyLower name] with
    | starts => exact absurd h hlaunch
    | fileNotFound => simp [open_application, hmatch, try_launch, h, Effects.app]
    | raisesOther => simp [open_application, hmatch, try_launch, h, Effects.app]
  · have hdata :
        ("Could not find " ++ pyLower name ++
          " as an application. Opening web search for it.").data =
          "Could not find ".data ++ (pyLower name).data ++
            " as an application. Opening web search for it.".data := by
      rw [String.data_append, String.data_append]
    rw [hdata, List.append_assoc]
    exact chStartsWith_opening_could _

/-- Witness for C4 at the unknown query `zzz` with no executables present. -/
theorem open_application_web_search_fallback_witness :
    open_application envAllNF "Linux" "zzz" =
      ("Could not find zzz as an application. Opening web search for it.",
       ⟨[["zzz"]], ["https://www.google.com/search?q=open+zzz"], []⟩) := by
  have h := open_application_web_search_fallback envAllNF "Linux" "zzz"
    (by decide) (by decide)
  exact h.1.trans (by decide)

/-! ## Claim C5 -/

/-- C5 (counterexample): the claim quantifies over every query containing a
web-target key, but a query containing both `notepad` and `youtube` is
resolved through the earlier-declared `notepad` entry: on a Linux host with no
editors installed the resolver returns the not-found failure and never opens
the declared YouTube URI. -/
theorem web_target_shadowed_cex :
    strIn "youtube" (pyLower "notepad youtube") = true ∧
    open_application envAllNF "Linux" "notepad youtube" =
      ("Notepad not found on this system.",
       ⟨[["gedit"], ["xed"], ["nano"]], [], []⟩) := by
  exact ⟨by decide, by decide⟩

/-- C5 (amended): for each registered web-target key, any query that contains
that key and contains no earlier-declared registry key resolves by opening
exactly the declared URI (and nothing else: no process launch) and returns the
success message naming the key. -/
theorem web_target_opens_declared_uri (env : List String → PopenBehavior)
    (osName name : String) :
    (strIn "notepad" (pyLower name) = false → strIn "calculator" (pyLower name) = false →
     strIn "task manager" (pyLower name) = false → strIn "terminal" (pyLower name) = false →
     strIn "youtube" (pyLower name) = true →
     open_application env osName name =
       ("Opening youtube", ⟨[], ["https://youtube.com"], []⟩)) ∧
    (strIn "notepad" (pyLower name) = false → strIn "calculator" (pyLower name) = false →
     strIn "task manager" (pyLower name) = false → strIn "terminal" (pyLower name) = false →
     strIn "youtube" (pyLower name) = false → strIn "google" (pyLower name) = true →
     open_application env osName name =
       ("Opening google", ⟨[], ["https://google.com"], []⟩)) := by
  constructor
  · intro h1 h2 h3 h4 h5
    simp [open_application, lookupMatch, APPS, h1, h2, h3, h4, h5]
  · intro h1 h2 h3 h4 h5 h6
    simp [open_application, lookupMatch, APPS, h1, h2, h3, h4, h5, h6]

/-- Witness for C5 at the queries `YouTube` and `Google`. -/
theorem web_target_opens_declared_uri_witness :
    open_application envAllNF "Linux" "YouTube" =
      ("Opening youtube", ⟨[], ["https://youtube.com"], []⟩) ∧
    open_application envAllNF "Linux" "Google" =
      ("Opening google", ⟨[], ["https://google.com"], []⟩) := by
  exact ⟨(web_target_opens_declared_uri envAllNF "Linux" "YouTube").1
           (by decide) (by decide) (by decide) (by decide) (by decide),
         (web_target_opens_declared_uri envAllNF "Linux" "Google").2
           (by decide) (by decide) (by decide) (by decide) (by decide) (by decide)⟩

/-! ## Claim C6 -/

/-- C6: an integer level outside 0-100 is rejected by validation before any
platform dispatch — the returned effect log shows no `subprocess.run`
invocation and no audio-endpoint call, and the level is unchanged. -/
theorem set_volume_out_of_range_validation (osName : String) (audioOk : Bool)
    (audioErr : String → Option String) (runErr : List String → Option String)
    (lvl : ℚ) (n : Int)
    (h : n < 0 ∨ 100 < n) :
    set_volume osName audioOk audioErr runErr lvl (VolArg.level n) =
      ("Error: Volume level must be between 0 and 100.", lvl, ⟨[], []⟩) := by
  have hcond : ¬(0 ≤ n ∧ n ≤ 100) := by omega
  simp [set_volume, hcond]

/-- Witness for C6 at level 150. -/
theorem set_volume_out_of_range_validation_witness :
    set_volume "Linux" true (fun _ => none) (fun _ => none) 50 (VolArg.level 150) =
      ("Error: Volume level must be between 0 and 100.", 50, ⟨[], []⟩) :=
  set_volume_out_of_range_validation "Linux" true (fun _ => none) (fun _ => none) 50 150
    (Or.inr (by norm_num))

/-! ## Claim C7 -/

/-- Volume step: on each supported platform, a successful `increase` lands on
`min 100 (lvl + 5)` (Windows by the source's own `min`, under succeeding
audio-endpoint calls; Linux/Darwin by the modelled external-mixer semantics of
the issued relative command, under a succeeding `subprocess.run`). -/
theorem set_volume_increase_eq (osName : String)
    (hos : osName = "Windows" ∨ osName = "Linux" ∨ osName = "Darwin")
    (audioErr : String → Option String) (haudio : ∀ m, audioErr m = none)
    (runErr : List String → Option String) (hrun : ∀ c, runErr c = none) (lvl : ℚ) :
    (set_volume osName true audioErr runErr lvl (VolArg.action "increase")).2.1 =
      min 100 (lvl + 5) := by
  rcases hos with h | h | h <;> subst h <;>
    simp [set_volume, pyLower, get_volume_control_cmd, mixerStep, haudio, hrun]

/-- Volume step: on each supported platform, a successful `decrease` lands on
`max 0 (lvl - 5)`. -/
theorem set_volume_decrease_eq (osName : String)
    (hos : osName = "Windows" ∨ osName = "Linux" ∨ osName = "Darwin")
    (audioErr : String → Option String) (haudio : ∀ m, audioErr m = none)
    (runErr : List String → Option String) (hrun : ∀ c, runErr c = none) (lvl : ℚ) :
    (set_volume osName true audioErr runErr lvl (VolArg.action "decrease")).2.1 =
      max 0 (lvl - 5) := by
  rcases hos with h | h | h <;> subst h <;>
    simp [set_volume, pyLower, get_volume_control_cmd, mixerStep, haudio, hrun]

/-- Any sequence of increase/decrease steps keeps the level inside 0-100. -/
theorem set_volume_fold_bounded (osName : String)
    (hos : osName = "Windows" ∨ osName = "Linux" ∨ osName = "Darwin")
    (audioErr : String → Option String) (haudio : ∀ m, audioErr m = none)
    (runErr : List String → Option String) (hrun : ∀ c, runErr c = none) :
    ∀ (acts : List String) (lvl : ℚ), 0 ≤ lvl → lvl ≤ 100 →
      (∀ a ∈ acts, a = "increase" ∨ a = "decrease") →
      0 ≤ acts.foldl
          (fun l a => (set_volume osName true audioErr runErr l (VolArg.action a)).2.1) lvl ∧
      acts.foldl
          (fun l a => (set_volume osName true audioErr runErr l (VolArg.action a)).2.1) lvl
        ≤ 100 := by
  intro acts
  induction acts with
  | nil => intro lvl h0 h1 _; exact ⟨h0, h1⟩
  | cons a t ih =>
    intro lvl h0 h1 hmem
    have ha := hmem a (List.mem_cons_self a t)
    have hstep :
        0 ≤ (set_volume osName true audioErr runErr lvl (VolArg.action a)).2.1 ∧
        (set_volume osName true audioErr runErr lvl (VolArg.action a)).2.1 ≤ 100 := by
      rcases ha with h | h <;> subst h
      · rw [set_volume_increase_eq osName hos audioErr haudio runErr hrun lvl]
        refine ⟨le_min (by norm_num) (by linarith), min_le_left _ _⟩
      · rw [set_volume_decrease_eq osName hos audioErr haudio runErr hrun lvl]
        refine ⟨le_max_left _ _, max_le (by norm_num) (by linarith)⟩
    simp only [List.foldl_cons]
    exact ih _ hstep.1 hstep.2 (fun b hb => hmem b (List.mem_cons_of_mem a hb))

/-- C7: on every supported platform, with the platform mechanism responding
(succeeding Windows audio-endpoint calls, succeeding external-mixer runs), one
`increase` lands exactly on `min 100 (lvl + 5)` and one `decrease` on
`max 0 (lvl - 5)`; both results lie in 0-100, and any sequence of
increase/decrease steps starting inside 0-100 never leaves 0-100. -/
theorem volume_step_clamped (osName : String)
    (hos : osName = "Windows" ∨ osName = "Linux" ∨ osName = "Darwin")
    (audioErr : String → Option String) (haudio : ∀ m, audioErr m = none)
    (runErr : List String → Option String) (hrun : ∀ c, runErr c = none)
    (lvl : ℚ) (h0 : 0 ≤ lvl) (h1 : lvl ≤ 100) :
    (set_volume osName true audioErr runErr lvl (VolArg.action "increase")).2.1 =
      min 100 (lvl + 5) ∧
    (set_volume osName true audioErr runErr lvl (VolArg.action "decrease")).2.1 =
      max 0 (lvl - 5) ∧
    0 ≤ (set_volume osName true audioErr runErr lvl (VolArg.action "increase")).2.1 ∧
    (set_volume osName true audioErr runErr lvl (VolArg.action "increase")).2.1 ≤ 100 ∧
    0 ≤ (set_volume osName true audioErr runErr lvl (VolArg.action "decrease")).2.1 ∧
    (set_volume osName true audioErr runErr lvl (VolArg.action "decrease")).2.1 ≤ 100 ∧
    (∀ acts : List String, (∀ a ∈ acts, a = "increase" ∨ a = "decrease") →
      0 ≤ acts.foldl
          (fun l a => (set_volume osName true audioErr runErr l (VolArg.action a)).2.1) lvl ∧
      acts.foldl
          (fun l a => (set_volume osName true audioErr runErr l (VolArg.action a)).2.1) lvl
        ≤ 100) := by
  have hinc := set_volume_increase_eq osName hos audioErr haudio runErr hrun lvl
  have hdec := set_volume_decrease_eq osName hos audioErr haudio runErr hrun lvl
  refine ⟨hinc, hdec, ?_, ?_, ?_, ?_, ?_⟩
  · rw [hinc]; exact le_min (by norm_num) (by linarith)
  · rw [hinc]; exact min_le_left _ _
  · rw [hdec]; exact le_max_left _ _
  · rw [hdec]; exact max_le (by norm_num) (by linarith)
  · intro acts hacts
    exact set_volume_fold_bounded osName hos audioErr haudio runErr hrun acts lvl h0 h1 hacts

/-- Witness for C7: on Linux at level 98, two increases clamp at 100; at level
0, a decrease clamps at 0; on Windows at level 98, an increase clamps at 100. -/
theorem volume_step_clamped_witness :
    (set_volume "Linux" true (fun _ => none) (fun _ => none) 98
        (VolArg.action "increase")).2.1 = 100 ∧
    (set_volume "Linux" true (fun _ => none) (fun _ => none) 0
        (VolArg.action "decrease")).2.1 = 0 ∧
    (set_volume "Windows" true (fun _ => none) (fun _ => none) 98
        (VolArg.action "increase")).2.1 = 100 ∧
    (["increase", "increase"].foldl
      (fun l a =>
        (set_volume "Linux" true (fun _ => none) (fun _ => none) l (VolArg.action a)).2.1) 98
      ≤ 100) := by
  have h := volume_step_clamped "Linux" (Or.inr (Or.inl rfl)) (fun _ => none)
    (fun _ => rfl) (fun _ => none) (fun _ => rfl) 98 (by norm_num) (by norm_num)
  have h2 := volume_step_clamped "Linux" (Or.inr (Or.inl rfl)) (fun _ => none)
    (fun _ => rfl) (fun _ => none) (fun _ => rfl) 0 (le_refl 0) (by norm_num)
  have h3 := volume_step_clamped "Windows" (Or.inl rfl) (fun _ => none)
    (fun _ => rfl) (fun _ => none) (fun _ => rfl) 98 (by norm_num) (by norm_num)
  refine ⟨?_, ?_, ?_, ?_⟩
  · rw [h.1]; norm_num [min_def]
  · rw [h2.2.1]; norm_num [max_def]
  · rw [h3.1]; norm_num [min_def]
  · exact (h.2.2.2.2.2.2 ["increase", "increase"]
      (by intro a ha; simp at ha; simp [ha])).2

/-! ## Claim C8 -/

/-- C8: the router classifies by ordered substring rules with first-match-wins
in the order time, date, knowledge-lookup, open, then the declared fallback; a
query containing `time` returns the clock formatted as the five-character
`HH:MM` rendering, and `open calculator` invokes the resolver with the key
`calculator`. -/
theorem handle_command_ordered_routing (env : RouterEnv) (q : String) :
    (strIn "time" (pyStrip (pyLower q)) = true →
      handle_command env q =
        ⟨"The current time is " ++ pad2 env.hh ++ ":" ++ pad2 env.mm, [], ⟨[], [], []⟩⟩) ∧
    (strIn "time" (pyStrip (pyLower q)) = false →
     strIn "date" (pyStrip (pyLower q)) = true →
      handle_command env q = ⟨"Today\x27s date is " ++ env.dateStr, [], ⟨[], [], []⟩⟩) ∧
    (strIn "time" (pyStrip (pyLower q)) = false →
     strIn "date" (pyStrip (pyLower q)) = false →
     strIn "wikipedia" (pyStrip (pyLower q)) = true →
      handle_command env q =
        (match env.wiki (pyStrip (pyReplace (pyStrip (pyLower q)) "wikipedia" "")) with
         | .ok info => ⟨"According to Wikipedia: " ++ info, [], ⟨[], [], []⟩⟩
         | .error e =>
           ⟨"Sorry, I couldn\x27t fetch that information. (" ++ e ++ ")", [], ⟨[], [], []⟩⟩)) ∧
    (strIn "time" (pyStrip (pyLower q)) = false →
     strIn "date" (pyStrip (pyLower q)) = false →
     strIn "wikipedia" (pyStrip (pyLower q)) = false →
     strIn "open" (pyStrip (pyLower q)) = true →
      handle_command env q =
        ⟨(open_application env.popen env.osName
            (pyStrip (pyReplace (pyStrip (pyLower q)) "open" ""))).1,
         [pyStrip (pyReplace (pyStrip (pyLower q)) "open" "")],
         (open_application env.popen env.osName
            (pyStrip (pyReplace (pyStrip (pyLower q)) "open" ""))).2⟩) ∧
    (strIn "time" (pyStrip (pyLower q)) = false →
     strIn "date" (pyStrip (pyLower q)) = false →
     strIn "wikipedia" (pyStrip (pyLower q)) = false →
     strIn "open" (pyStrip (pyLower q)) = false →
      handle_command env q = ⟨"Sorry, I don\x27t know that yet.", [], ⟨[], [], []⟩⟩) ∧
    (pad2 env.hh ++ ":" ++ pad2 env.mm).data =
      [Nat.digitChar (env.hh / 10 % 10), Nat.digitChar (env.hh % 10), ':',
       Nat.digitChar (env.mm / 10 % 10), Nat.digitChar (env.mm % 10)] ∧
    (handle_command env "open calculator").resolverKeys = ["calculator"] := by
  refine ⟨?_, ?_, ?_, ?_, ?_, rfl, rfl⟩
  · intro h1
    simp [handle_command, h1]
  · intro h1 h2
    simp [handle_command, h1, h2]
  · intro h1 h2 h3
    cases hw : env.wiki (pyStrip (pyReplace (pyStrip (pyLower q)) "wikipedia" "")) <;>
      simp [handle_command, h1, h2, h3, hw]
  · intro h1 h2 h3 h4
    simp [handle_command, h1, h2, h3, h4]
  · intro h1 h2 h3 h4
    simp [handle_command, h1, h2, h3, h4]

/-- Witness for C8 at the queries `what time is it` and `open calculator`. -/
theorem handle_command_ordered_routing_witness :
    handle_command renv0 "what time is it" =
      ⟨"The current time is 09:05", [], ⟨[], [], []⟩⟩ ∧
    (handle_command renv0 "open calculator").resolverKeys = ["calculator"] := by
  have h := handle_command_ordered_routing renv0 "what time is it"
  exact ⟨(h.1 (by decide)).trans (by decide),
         (handle_command_ordered_routing renv0 "x").2.2.2.2.2.2⟩

/-! ## Claim C9 -/

/-- C9: when a query routes to the knowledge-lookup branch and the collaborator
fails with detail `e`, the router returns the apologetic message with `e`
inlined — the failure is converted to a result string at the point of origin,
and since `handle_command` is a total function of the collaborator's outcome,
nothing propagates past its boundary from this branch. -/
theorem wikipedia_failure_converted (env : RouterEnv) (q e : String)
    (ht : strIn "time" (pyStrip (pyLower q)) = false)
    (hd : strIn "date" (pyStrip (pyLower q)) = false)
    (hw : strIn "wikipedia" (pyStrip (pyLower q)) = true)
    (he : env.wiki (pyStrip (pyReplace (pyStrip (pyLower q)) "wikipedia" "")) =
      Except.error e) :
    (handle_command env q).msg =
      "Sorry, I couldn\x27t fetch that information. (" ++ e ++ ")" ∧
    strIn e (handle_command env q).msg = true := by
  have hmsg : (handle_command env q).msg =
      "Sorry, I couldn\x27t fetch that information. (" ++ e ++ ")" := by
    simp [handle_command, ht, hd, hw, he]
  refine ⟨hmsg, ?_⟩
  rw [hmsg]
  exact strIn_parts "Sorry, I couldn\x27t fetch that information. (" e ")"

/-- Witness for C9 at the query `wikipedia lean` with a failing collaborator. -/
theorem wikipedia_failure_converted_witness :
    (handle_command renv0 "wikipedia lean").msg =
      "Sorry, I couldn\x27t fetch that information. (test detail)" := by
  have h := wikipedia_failure_converted renv0 "wikipedia lean" "test detail"
    (by decide) (by decide) (by decide) (by rfl)
  exact h.1

/-! ## Claim C10 -/

/-- C10: the key handed to the resolver by the open intent is the normalized
query with every occurrence of the substring `open` deleted and surrounding
whitespace stripped; in particular the query `open openoffice` hands the key
`office` to the resolver, not the named target `openoffice`. -/
theorem open_intent_key_extraction (env : RouterEnv) (q : String)
    (ht : strIn "time" (pyStrip (pyLower q)) = false)
    (hd : strIn "date" (pyStrip (pyLower q)) = false)
    (hw : strIn "wikipedia" (pyStrip (pyLower q)) = false)
    (ho : strIn "open" (pyStrip (pyLower q)) = true) :
    (handle_command env q).resolverKeys =
      [pyStrip (pyReplace (pyStrip (pyLower q)) "open" "")] ∧
    (handle_command env "open openoffice").resolverKeys = ["office"] := by
  constructor
  · simp [handle_command, ht, hd, hw, ho]
  · rfl

/-- Witness for C10 at the queries `open firefox` and `open openoffice`. -/
theorem open_intent_key_extraction_witness :
    (handle_command renv0 "open firefox").resolverKeys = ["firefox"] ∧
    (handle_command renv0 "open openoffice").resolverKeys = ["office"] := by
  have h := open_intent_key_extraction renv0 "open firefox"
    (by decide) (by decide) (by decide) (by decide)
  exact ⟨h.1.trans (by decide), h.2⟩
